import Mathlib

/-!
Shallow embedding of the client-side authentication session manager of
angular-ngxs-material-starter: the AuthState ngxs store (action handlers and
selectors), the HttpStatusInterceptor error classification, the sign-in
container submit handler, and the two-factor-authentication component error
slots. Each definition is translated from the TypeScript source; time is
modelled at the second granularity of getUnixTime / fromUnixTime, with the
clock passed explicitly.
-/

/-- Active auth type enum: values are the string literals of
ActiveAuthType; the default in the store is sign-in-active. -/
inductive ActiveAuthType where
  | signInActive
  | signUpActive
  | forgotPasswordActive
deriving DecidableEq, Repr

/-- AuthStateModel: the eleven fields initialised in the AuthState defaults
block of the @State decorator. expires_at holds Unix seconds (0 meaning no
token issued). -/
structure AuthStateModel where
  isAuthenticated : Bool
  access_token : String
  expires_at : Int
  rememberMe : Bool
  username : String
  is2StepVerificationRequired : Bool
  is2StepVerificationSuccessful : Bool
  isRedeemRecoveryCodeSuccessful : Bool
  userId : String
  activeAuthType : ActiveAuthType
  passwordResetCompleted : Bool
deriving DecidableEq, Repr

/-- The defaults block of the @State decorator on AuthState. -/
def authStateDefaults : AuthStateModel where
  isAuthenticated := false
  access_token := ""
  expires_at := 0
  rememberMe := false
  username := ""
  is2StepVerificationRequired := false
  is2StepVerificationSuccessful := false
  isRedeemRecoveryCodeSuccessful := false
  userId := ""
  activeAuthType := ActiveAuthType.signInActive
  passwordResetCompleted := false

/-- Result of running an immer recipe, as passed to ctx.setState via the
curried produce. A recipe either mutates the draft proxy in place and
returns undefined, in which case produce yields the final value of the
proxy, or it returns a fresh object, which produce takes as the next state.
A recipe that neither writes through the proxy nor returns a value leaves
the state unchanged: in particular, reassigning the recipe parameter
(draft = copy) rebinds a local variable to a plain copy, and later writes
to that local never reach the proxy. -/
inductive ImmerResult where
  | voidRecipe (proxyFinal : AuthStateModel)
  | returned (value : AuthStateModel)

/-- Immer produce applied by ngxs setState to the current state. -/
def produce (recipe : AuthStateModel → ImmerResult) (base : AuthStateModel) : AuthStateModel :=
  match recipe base with
  | ImmerResult.voidRecipe s => s
  | ImmerResult.returned s => s

namespace AuthState

/-- Recipe of the rememberMe handler (action RememberMeOptionChange, payload
of shape rememberMe : Bool). The body reassigns the draft parameter to a
plain spread copy merged with the payload and then clears username on that
copy; it has no return statement. The proxy is never written, so immer
keeps the base state: the local copy below is computed and then discarded,
exactly as in the source. -/
def rememberMeRecipe (payload_rememberMe : Bool) (draft : AuthStateModel) : ImmerResult :=
  let _localCopy : AuthStateModel :=
    { { draft with rememberMe := payload_rememberMe } with username := "" }
  ImmerResult.voidRecipe draft

/-- Handler registered under Auth.RememberMeOptionChange. -/
def rememberMe (state : AuthStateModel) (payload_rememberMe : Bool) : AuthStateModel :=
  produce (rememberMeRecipe payload_rememberMe) state

/-- Handler registered under Auth.UpdateRememberMeUsername: the recipe
reassigns the draft to a spread copy merged with the payload (shape
username : String) and returns it, so the returned object becomes the next
state. -/
def updateRememberMeUsername (state : AuthStateModel) (payload_username : String) : AuthStateModel :=
  produce (fun draft => ImmerResult.returned { draft with username := payload_username }) state

/-- Handler registered under Auth.Signin. The payload carries the access
token object and userId; expires_at is computed outside the recipe as
getUnixTime of now plus expires_in seconds, and the recipe mutates the
draft proxy in place. now is the current Unix time in seconds. -/
def signin (state : AuthStateModel) (payload_access_token : String) (payload_expires_in : Int)
    (payload_userId : String) (now : Int) : AuthStateModel :=
  let expires_at : Int := now + payload_expires_in
  produce (fun draft => ImmerResult.voidRecipe
    { draft with
        isAuthenticated := true
        access_token := payload_access_token
        expires_at := expires_at
        userId := payload_userId }) state

/-- Handler registered under Auth.SetCurrentUserId: spread-merge of the
payload (shape userId : String), returned from the recipe. -/
def setCurrentUserId (state : AuthStateModel) (payload_userId : String) : AuthStateModel :=
  produce (fun draft => ImmerResult.returned { draft with userId := payload_userId }) state

/-- Handler registered under Auth.Signout: the recipe mutates the draft
proxy in place, resetting the authentication fields and the second-factor
and recovery-code flags. -/
def signout (state : AuthStateModel) : AuthStateModel :=
  produce (fun draft => ImmerResult.voidRecipe
    { draft with
        isAuthenticated := false
        is2StepVerificationRequired := false
        is2StepVerificationSuccessful := false
        isRedeemRecoveryCodeSuccessful := false
        access_token := ""
        expires_at := 0
        userId := "" }) state

/-- Handler registered under Auth.KeepOrRemoveRememberMeUsername: reads
rememberMe from the state before the recipe, then writes username through
the proxy. -/
def keepOrRemoveRememberMeUsername (state : AuthStateModel) : AuthStateModel :=
  let rememberMe := state.rememberMe
  produce (fun draft => ImmerResult.voidRecipe
    { draft with username := if rememberMe then draft.username else "" }) state

/-- Handler registered under Auth.SwitchAuthType: spread-merge of the
payload (shape activeAuthType), returned from the recipe. -/
def switchAuthType (state : AuthStateModel) (payload_activeAuthType : ActiveAuthType) : AuthStateModel :=
  produce (fun draft => ImmerResult.returned { draft with activeAuthType := payload_activeAuthType }) state

/-- First handler registered under Auth.Is2StepVerificationSuccessful:
spread-merge of that action payload (shape
is2StepVerificationSuccessful : Bool), returned from the recipe. -/
def is2StepVerificationSuccessful (state : AuthStateModel) (payload_is2StepVerificationSuccessful : Bool) : AuthStateModel :=
  produce (fun draft => ImmerResult.returned
    { draft with is2StepVerificationSuccessful := payload_is2StepVerificationSuccessful }) state

/-- The method named is2StepVerificationRequired. Its @Action decorator
names Auth.Is2StepVerificationSuccessful, so the only action instance it
ever receives is an Is2StepVerificationSuccessful action, and the
spread-merge of action.payload overwrites the is2StepVerificationSuccessful
field, not the is2StepVerificationRequired field. -/
def is2StepVerificationRequired (state : AuthStateModel) (payload_is2StepVerificationSuccessful : Bool) : AuthStateModel :=
  produce (fun draft => ImmerResult.returned
    { draft with is2StepVerificationSuccessful := payload_is2StepVerificationSuccessful }) state

/-- Handler registered under Auth.IsRedeemRecoveryCodeSuccessful:
spread-merge of the payload, returned from the recipe. -/
def isRedeemRecoveryCodeSuccessful (state : AuthStateModel) (payload_isRedeemRecoveryCodeSuccessful : Bool) : AuthStateModel :=
  produce (fun draft => ImmerResult.returned
    { draft with isRedeemRecoveryCodeSuccessful := payload_isRedeemRecoveryCodeSuccessful }) state

/-- Handler registered under Auth.PasswordResetCompleted: spread-merge of
the payload, returned from the recipe. -/
def passwordResetCompleted (state : AuthStateModel) (payload_passwordResetCompleted : Bool) : AuthStateModel :=
  produce (fun draft => ImmerResult.returned
    { draft with passwordResetCompleted := payload_passwordResetCompleted }) state

/-- Selector _selectExpiresAt: fromUnixTime of expires_at or 0. At second
granularity the conversion is the identity, and the or-0 coalescing maps 0
to 0, so the selector yields the stored value. -/
def _selectExpiresAt (state : AuthStateModel) : Int :=
  state.expires_at

/-- Selector selectIsAuthenticated: isAuthenticated and isBefore of the
current time against the expiry date (a strict comparison). now is the
current Unix time in seconds. -/
def selectIsAuthenticated (state : AuthStateModel) (now : Int) : Bool :=
  state.isAuthenticated && decide (now < _selectExpiresAt state)

/-- Selector selectExpiresInSeconds: the difference of the expiry date and
the current date in milliseconds, divided by 1000, absolute value. Both
instants carry whole seconds, so getTime yields the second count times
1000; the division is exact over the rationals. -/
def selectExpiresInSeconds (state : AuthStateModel) (now : Int) : ℚ :=
  let difference : ℚ := ((_selectExpiresAt state * 1000 : Int) : ℚ) - ((now * 1000 : Int) : ℚ)
  let seconds : ℚ := difference / 1000
  |seconds|

/-- Selector selectDidUserExplicitlySignout: the access token is the empty
string. -/
def selectDidUserExplicitlySignout (state : AuthStateModel) : Bool :=
  state.access_token == ""

end AuthState

/-- Modelled from the spec: the action classes of auth.store.actions are
not among the provided sources. Section 4.1 lists the transitions and their
payloads; each handler spreads action.payload over the draft, so a payload
is the one-field object for the field its transition overwrites. The
constructor arguments below are those payload fields. -/
inductive AuthAction where
  | rememberMeOptionChange (rememberMe : Bool)
  | updateRememberMeUsername (username : String)
  | signin (access_token : String) (expires_in : Int) (userId : String)
  | setCurrentUserId (userId : String)
  | signout
  | keepOrRemoveRememberMeUsername
  | switchAuthType (activeAuthType : ActiveAuthType)
  | is2StepVerificationRequired (is2StepVerificationRequired : Bool)
  | is2StepVerificationSuccessful (is2StepVerificationSuccessful : Bool)
  | isRedeemRecoveryCodeSuccessful (isRedeemRecoveryCodeSuccessful : Bool)
  | passwordResetCompleted (passwordResetCompleted : Bool)
deriving DecidableEq, Repr

/-- Net state effect of dispatching one auth action through the ngxs store
at Unix time now: the handlers whose @Action decorator names the action
type run in declaration order. No method is decorated with
Auth.Is2StepVerificationRequired, so that action runs no handler; both the
is2StepVerificationSuccessful and the is2StepVerificationRequired methods
are decorated with Auth.Is2StepVerificationSuccessful, so that action runs
both, each merging the is2StepVerificationSuccessful payload field. The
follow-up PersistSettings dispatch writes the new state to local storage
and does not change the store state. -/
def dispatchAuth (now : Int) (state : AuthStateModel) : AuthAction → AuthStateModel
  | AuthAction.rememberMeOptionChange b => AuthState.rememberMe state b
  | AuthAction.updateRememberMeUsername u => AuthState.updateRememberMeUsername state u
  | AuthAction.signin tok lifetime uid => AuthState.signin state tok lifetime uid now
  | AuthAction.setCurrentUserId uid => AuthState.setCurrentUserId state uid
  | AuthAction.signout => AuthState.signout state
  | AuthAction.keepOrRemoveRememberMeUsername => AuthState.keepOrRemoveRememberMeUsername state
  | AuthAction.switchAuthType t => AuthState.switchAuthType state t
  | AuthAction.is2StepVerificationRequired _ => state
  | AuthAction.is2StepVerificationSuccessful b =>
      AuthState.is2StepVerificationRequired (AuthState.is2StepVerificationSuccessful state b) b
  | AuthAction.isRedeemRecoveryCodeSuccessful b => AuthState.isRedeemRecoveryCodeSuccessful state b
  | AuthAction.passwordResetCompleted b => AuthState.passwordResetCompleted state b

/-- Modelled from the spec: the ProblemDetails and InternalServerErrorDetails
model files and the implements-odm-web-api-exception utility are not among
the provided sources. Section 3 describes the structured exception shape as
a detail-bearing object with the same fields as a validation error, and the
500 branch otherwise reads the body through its message. An error body is
therefore modelled by whether it structurally implements the
OdmWebApiException shape together with its detail and message renderings. -/
structure ErrorBody where
  hasOdmExceptionShape : Bool
  detail : String
  message : String
deriving DecidableEq, Repr

/-- Modelled from the spec: a detail-bearing body structurally matches the
structured exception shape. -/
def implementsOdmWebApiException (body : ErrorBody) : Bool :=
  body.hasOdmExceptionShape

/-- The slice of HttpErrorResponse the interceptor reads: the status code
and the error body. -/
structure HttpErrorResponse where
  status : Nat
  error : ErrorBody
deriving DecidableEq, Repr

/-- The value the interceptor stores in the internalServerErrorDetails slot
of ServerErrorService: either the response body itself (structured 500
case) or the synthesized object with a status and a message (unstructured
500 and 504 cases). -/
inductive StoredInternalError where
  | body (b : ErrorBody)
  | synthesized (status : Nat) (message : String)
deriving DecidableEq, Repr

/-- ServerErrorService: the two latest-error slots the interceptor writes. -/
structure ServerErrorService where
  problemDetails : Option ErrorBody
  internalServerErrorDetails : Option StoredInternalError
deriving DecidableEq, Repr

/-- What the observable returned by the error handler does: NEVER emits
nothing and never completes; throwError propagates either the original
HttpErrorResponse or a synthesized internal-server-error object as a hard
failure to the caller. -/
inductive HandlerOutcome where
  | never
  | throwOriginal (e : HttpErrorResponse)
  | throwInternal (err : StoredInternalError)
deriving DecidableEq, Repr

namespace HttpStatusInterceptor

/-- The switch of the private error handling method of
HttpStatusInterceptor, returning the updated ServerErrorService slots and
the returned observable. Case 400 stores the body as problemDetails and
returns NEVER; cases 401 and 403 store the body as problemDetails and
rethrow the original response; case 500 stores either the structured body
or a synthesized object and rethrows it; case 504 synthesizes a fixed
message, stores it and rethrows it; the default case rethrows the original
response without storing anything. -/
def handleError (e : HttpErrorResponse) (svc : ServerErrorService) :
    ServerErrorService × HandlerOutcome :=
  if e.status = 400 then
    ({ svc with problemDetails := some e.error }, HandlerOutcome.never)
  else if e.status = 401 ∨ e.status = 403 then
    ({ svc with problemDetails := some e.error }, HandlerOutcome.throwOriginal e)
  else if e.status = 500 then
    if implementsOdmWebApiException e.error then
      ({ svc with internalServerErrorDetails := some (StoredInternalError.body e.error) },
        HandlerOutcome.throwInternal (StoredInternalError.body e.error))
    else
      let err := StoredInternalError.synthesized e.status e.error.message
      ({ svc with internalServerErrorDetails := some err }, HandlerOutcome.throwInternal err)
  else if e.status = 504 then
    let err := StoredInternalError.synthesized e.status "Server is down."
    ({ svc with internalServerErrorDetails := some err }, HandlerOutcome.throwInternal err)
  else
    (svc, HandlerOutcome.throwOriginal e)

end HttpStatusInterceptor

/-- SigninUser model: the submitted sign-in form value. -/
structure SigninUser where
  email : String
  password : String
deriving DecidableEq, Repr

/-- Observable effects of the sign-in submit handler: clearing the stale
serverError on the email control, and invoking signinUser on the sandbox,
which dispatches the sign-in operation and issues the network call. -/
inductive SigninSubmitEffect where
  | clearEmailServerError
  | signinUser (model : SigninUser)
deriving DecidableEq, Repr

namespace SignInContainerComponent

/-- The submit handler of SignInContainerComponent: if the email control
carries a serverError it is cleared; then signinUser is invoked exactly
when both the email and the password of the model differ from the empty
string. -/
def onSigninSubmitted (emailHasServerError : Bool) (model : SigninUser) :
    List SigninSubmitEffect :=
  (if emailHasServerError then [SigninSubmitEffect.clearEmailServerError] else []) ++
  (if model.email != "" && model.password != "" then
      [SigninSubmitEffect.signinUser model]
    else [])

end SignInContainerComponent

/-- The error-slot state of TwoFactorAuthenticationComponent: the two
stored server-error fields and the setup wizard visibility flag the
handlers also touch. -/
structure TwoFactorAuthenticationComponent where
  _problemDetails : Option ErrorBody
  _internalServerErrorDetails : Option ErrorBody
  _showTwoFactorAuthSetupWizard : Bool
deriving DecidableEq, Repr

namespace TwoFactorAuthenticationComponent

/-- The problemDetails input setter: nulls the internal-server-error slot
and stores the incoming value. -/
def setProblemDetails (c : TwoFactorAuthenticationComponent) (value : ErrorBody) :
    TwoFactorAuthenticationComponent :=
  { c with _internalServerErrorDetails := none, _problemDetails := some value }

/-- The internalServerErrorDetails input setter: nulls the problem-details
slot and stores the incoming value. -/
def setInternalServerErrorDetails (c : TwoFactorAuthenticationComponent) (value : ErrorBody) :
    TwoFactorAuthenticationComponent :=
  { c with _problemDetails := none, _internalServerErrorDetails := some value }

/-- The private method that clears both server-error slots. -/
def _removeServerErrors (c : TwoFactorAuthenticationComponent) :
    TwoFactorAuthenticationComponent :=
  { c with _problemDetails := none, _internalServerErrorDetails := none }

/-- Handler for the two-factor-auth toggle: removes server errors, then
emits the toggle event. -/
def _onTwoFactorAuthToggle (c : TwoFactorAuthenticationComponent) :
    TwoFactorAuthenticationComponent :=
  _removeServerErrors c

/-- Handler for cancelling the setup wizard: hides the wizard, removes
server errors, then emits the cancel event. -/
def _onCancelSetupWizard (c : TwoFactorAuthenticationComponent) :
    TwoFactorAuthenticationComponent :=
  _removeServerErrors { c with _showTwoFactorAuthSetupWizard := false }

/-- Handler for finishing the setup: hides the wizard and emits the finish
event; it does not call the server-error removal method. -/
def _onFinish2faSetup (c : TwoFactorAuthenticationComponent) :
    TwoFactorAuthenticationComponent :=
  { c with _showTwoFactorAuthSetupWizard := false }

/-- Handler for requesting new recovery codes: removes server errors, then
emits the request event. -/
def _onGenerateNew2FaRecoveryCodes (c : TwoFactorAuthenticationComponent) :
    TwoFactorAuthenticationComponent :=
  _removeServerErrors c

/-- Handler for verifying the authenticator code: removes server errors,
then emits the verification event. -/
def _onVerifyAuthenticator (c : TwoFactorAuthenticationComponent) :
    TwoFactorAuthenticationComponent :=
  _removeServerErrors c

/-- Handler for closing the user codes expansion panel: removes server
errors. -/
def _onUserCodesPanelClosed (c : TwoFactorAuthenticationComponent) :
    TwoFactorAuthenticationComponent :=
  _removeServerErrors c

end TwoFactorAuthenticationComponent

/-- The operations of TwoFactorAuthenticationComponent that touch or could
touch the error slots: the two input setters and the six user action
handlers. -/
inductive TwoFaOp where
  | setProblemDetails (value : ErrorBody)
  | setInternalServerErrorDetails (value : ErrorBody)
  | twoFactorAuthToggle
  | cancelSetupWizard
  | finish2faSetup
  | generateNew2FaRecoveryCodes
  | verifyAuthenticator
  | userCodesPanelClosed
deriving DecidableEq, Repr

/-- Runs one component operation. -/
def applyTwoFaOp (op : TwoFaOp) (c : TwoFactorAuthenticationComponent) :
    TwoFactorAuthenticationComponent :=
  match op with
  | TwoFaOp.setProblemDetails v => TwoFactorAuthenticationComponent.setProblemDetails c v
  | TwoFaOp.setInternalServerErrorDetails v => TwoFactorAuthenticationComponent.setInternalServerErrorDetails c v
  | TwoFaOp.twoFactorAuthToggle => TwoFactorAuthenticationComponent._onTwoFactorAuthToggle c
  | TwoFaOp.cancelSetupWizard => TwoFactorAuthenticationComponent._onCancelSetupWizard c
  | TwoFaOp.finish2faSetup => TwoFactorAuthenticationComponent._onFinish2faSetup c
  | TwoFaOp.generateNew2FaRecoveryCodes => TwoFactorAuthenticationComponent._onGenerateNew2FaRecoveryCodes c
  | TwoFaOp.verifyAuthenticator => TwoFactorAuthenticationComponent._onVerifyAuthenticator c
  | TwoFaOp.userCodesPanelClosed => TwoFactorAuthenticationComponent._onUserCodesPanelClosed c

/-- The user action handlers whose bodies call the server-error removal
method: every handler except finish2faSetup (and neither input setter). -/
def clearsBothServerErrorSlots : TwoFaOp → Bool
  | TwoFaOp.twoFactorAuthToggle => true
  | TwoFaOp.cancelSetupWizard => true
  | TwoFaOp.generateNew2FaRecoveryCodes => true
  | TwoFaOp.verifyAuthenticator => true
  | TwoFaOp.userCodesPanelClosed => true
  | _ => false

/-- At most one of the two stored server-error slots is non-null. -/
def atMostOneServerError (c : TwoFactorAuthenticationComponent) : Prop :=
  c._problemDetails = none ∨ c._internalServerErrorDetails = none

instance (c : TwoFactorAuthenticationComponent) : Decidable (atMostOneServerError c) := by
  unfold atMostOneServerError
  infer_instance

/-- Concrete prior state for exercising the RememberMeOptionChange handler:
a remembered username with the remember-me option off. -/
def c1PriorState : AuthStateModel :=
  { authStateDefaults with username := "bob" }

/-- Claim C1: the claim states that the RememberMeOptionChange handler sets
rememberMe to the payload and clears username. In the source the recipe
reassigns its draft parameter to a spread copy and returns nothing, so the
produced state is the prior state unchanged: with prior username bob and
rememberMe false, payload true leaves username bob and rememberMe false,
and in general the handler is the identity on the state. -/
theorem c1_rememberMe_handler_is_noop :
    (AuthState.rememberMe c1PriorState true).username = "bob"
    ∧ (AuthState.rememberMe c1PriorState true).rememberMe = false
    ∧ ∀ (s : AuthStateModel) (b : Bool), AuthState.rememberMe s b = s :=
  ⟨rfl, rfl, fun _ _ => rfl⟩

/-- Claim C2: the claim states that dispatching the
Is2StepVerificationRequired action sets is2StepVerificationRequired to the
payload as a transition independent of Is2StepVerificationSuccessful. In
the source no handler is decorated with that action type, so the dispatch
leaves the state unchanged: on the default state with payload true the
flag stays false, and in general the dispatch is the identity; dispatching
Is2StepVerificationSuccessful, which runs both decorated methods, also
never changes the is2StepVerificationRequired field. -/
theorem c2_is2StepVerificationRequired_dispatch_is_noop :
    (dispatchAuth 0 authStateDefaults (AuthAction.is2StepVerificationRequired true)).is2StepVerificationRequired = false
    ∧ (∀ (now : Int) (s : AuthStateModel) (b : Bool),
        dispatchAuth now s (AuthAction.is2StepVerificationRequired b) = s)
    ∧ (∀ (now : Int) (s : AuthStateModel) (b : Bool),
        (dispatchAuth now s (AuthAction.is2StepVerificationSuccessful b)).is2StepVerificationRequired
          = s.is2StepVerificationRequired) :=
  ⟨rfl, fun _ _ _ => rfl, fun _ _ _ => rfl⟩

/-- Claim C3: immediately after the signin transition performed at time
now with a non-negative lifetime, the selectIsAuthenticated projection is
true at a time t exactly when t is before now plus the lifetime, and a
lifetime of zero yields false already at time now. -/
theorem c3_signin_session_validity (s : AuthStateModel) (tok uid : String)
    (lifetimeSeconds now : Int) (_h : 0 ≤ lifetimeSeconds) :
    (∀ t : Int,
      AuthState.selectIsAuthenticated (AuthState.signin s tok lifetimeSeconds uid now) t = true
        ↔ t < now + lifetimeSeconds)
    ∧ AuthState.selectIsAuthenticated (AuthState.signin s tok 0 uid now) now = false := by
  constructor
  · intro t
    simp [AuthState.selectIsAuthenticated, AuthState.signin, AuthState._selectExpiresAt, produce]
  · simp [AuthState.selectIsAuthenticated, AuthState.signin, AuthState._selectExpiresAt, produce]

/-- Claim C3 witness: concrete evaluation of the session-validity theorem
at lifetime 5, sign-in time 100 and observation time 104. -/
theorem c3_signin_session_validity_witness :
    AuthState.selectIsAuthenticated (AuthState.signin authStateDefaults "tok" 5 "uid1" 100) 104 = true
      ↔ (104 : Int) < 100 + 5 :=
  (c3_signin_session_validity authStateDefaults "tok" "uid1" 5 100 (by norm_num)).1 104

/-- Claim C4: for every prior state, the signout transition yields
isAuthenticated false, an empty access token, expires_at zero, an empty
userId, and both second-factor flags and the recovery-code flag false. -/
theorem c4_signout_resets_session (s : AuthStateModel) :
    (AuthState.signout s).isAuthenticated = false
    ∧ (AuthState.signout s).access_token = ""
    ∧ (AuthState.signout s).expires_at = 0
    ∧ (AuthState.signout s).userId = ""
    ∧ (AuthState.signout s).is2StepVerificationRequired = false
    ∧ (AuthState.signout s).is2StepVerificationSuccessful = false
    ∧ (AuthState.signout s).isRedeemRecoveryCodeSuccessful = false :=
  ⟨rfl, rfl, rfl, rfl, rfl, rfl, rfl⟩

/-- Claim C5: for every prior state, the signout transition preserves the
rememberMe, username and activeAuthType fields. -/
theorem c5_signout_preserves_preferences (s : AuthStateModel) :
    (AuthState.signout s).rememberMe = s.rememberMe
    ∧ (AuthState.signout s).username = s.username
    ∧ (AuthState.signout s).activeAuthType = s.activeAuthType :=
  ⟨rfl, rfl, rfl⟩

/-- Claim C6: for every body and prior service state, a 400 response is
stored as the latest problemDetails and the handler returns NEVER, which
emits nothing, while 401 and 403 responses are stored as the latest
problemDetails and then rethrown to the caller as hard failures. -/
theorem c6_handleError_400_absorbed_401_403_propagated (body : ErrorBody) (svc : ServerErrorService) :
    HttpStatusInterceptor.handleError ⟨400, body⟩ svc
      = ({ svc with problemDetails := some body }, HandlerOutcome.never)
    ∧ HttpStatusInterceptor.handleError ⟨401, body⟩ svc
      = ({ svc with problemDetails := some body }, HandlerOutcome.throwOriginal ⟨401, body⟩)
    ∧ HttpStatusInterceptor.handleError ⟨403, body⟩ svc
      = ({ svc with problemDetails := some body }, HandlerOutcome.throwOriginal ⟨403, body⟩) :=
  ⟨rfl, rfl, rfl⟩

/-- Concrete 504 response body and empty service state for evaluating the
gateway-timeout branch. -/
def c7Body : ErrorBody := ⟨false, "", "upstream gave no answer"⟩

/-- Empty ServerErrorService with both latest-error slots null. -/
def c7Svc : ServerErrorService := ⟨none, none⟩

/-- Claim C7 counterexample: the message synthesized for a 504 response is
the string Server is down. with a capital S and a trailing period, which
differs from the lowercase string server is down asserted by the claim. -/
theorem c7_504_message_counterexample :
    (HttpStatusInterceptor.handleError ⟨504, c7Body⟩ c7Svc).2
      = HandlerOutcome.throwInternal (StoredInternalError.synthesized 504 "Server is down.")
    ∧ ("Server is down." : String) ≠ "server is down" :=
  ⟨rfl, by decide⟩

/-- Claim C7 amended: for every body and prior service state, a 504
response synthesizes an internal-server-error object with status 504 and
the fixed message Server is down., stores it as the latest internal server
error, and rethrows it to the caller as a hard failure. -/
theorem c7_504_fixed_message_amended (body : ErrorBody) (svc : ServerErrorService) :
    HttpStatusInterceptor.handleError ⟨504, body⟩ svc
      = ({ svc with
            internalServerErrorDetails := some (StoredInternalError.synthesized 504 "Server is down.") },
          HandlerOutcome.throwInternal (StoredInternalError.synthesized 504 "Server is down.")) :=
  rfl

/-- Claim C8: the sign-in submit handler invokes the sign-in operation
exactly when both the submitted email and password differ from the empty
string; otherwise no sign-in effect is emitted, so no network call is
issued. -/
theorem c8_onSigninSubmitted_dispatch_iff_nonempty (emailHasServerError : Bool) (model : SigninUser) :
    SigninSubmitEffect.signinUser model
        ∈ SignInContainerComponent.onSigninSubmitted emailHasServerError model
      ↔ (model.email ≠ "" ∧ model.password ≠ "") := by
  cases emailHasServerError <;>
    by_cases h1 : model.email = "" <;>
    by_cases h2 : model.password = "" <;>
    simp [SignInContainerComponent.onSigninSubmitted, h1, h2]

/-- Claim C9: the selectExpiresInSeconds projection equals the absolute
value of the stored expiry instant minus the current time, expressed in
seconds, and it is non-negative at every observation time, in particular
after the expiry time has passed. -/
theorem c9_selectExpiresInSeconds_abs (s : AuthStateModel) (now : Int) :
    AuthState.selectExpiresInSeconds s now = |((s.expires_at : ℚ) - (now : ℚ))|
    ∧ 0 ≤ AuthState.selectExpiresInSeconds s now := by
  have hval : AuthState.selectExpiresInSeconds s now = |((s.expires_at : ℚ) - (now : ℚ))| := by
    show |((((s.expires_at * 1000 : Int)) : ℚ) - (((now * 1000 : Int)) : ℚ)) / 1000| = _
    push_cast
    rw [show ((s.expires_at : ℚ) * 1000 - (now : ℚ) * 1000) / 1000
          = (s.expires_at : ℚ) - (now : ℚ) by ring]
  exact ⟨hval, hval ▸ abs_nonneg _⟩

/-- Concrete error body stored in the problem-details slot for exercising
the finish-setup handler. -/
def c10Body : ErrorBody := ⟨true, "validation failed", "validation failed"⟩

/-- Component state holding a latest problem details while the setup
wizard is shown. -/
def c10Component : TwoFactorAuthenticationComponent := ⟨some c10Body, none, true⟩

/-- Claim C10 counterexample: the finish-setup handler is a user action
handler, yet running it on a component holding a problem details leaves
that slot populated, so not every user action handler clears both error
slots. -/
theorem c10_finish2faSetup_counterexample :
    (TwoFactorAuthenticationComponent._onFinish2faSetup c10Component)._problemDetails = some c10Body
    ∧ some c10Body ≠ (none : Option ErrorBody) :=
  ⟨rfl, by decide⟩

/-- Claim C10 amended: every component operation preserves the invariant
that at most one error slot is non-null; the problemDetails setter nulls
the internal-server-error slot, the internalServerErrorDetails setter
nulls the problem-details slot, every user action handler except
finish2faSetup clears both slots, and the finish2faSetup handler leaves
both slots unchanged. -/
theorem c10_error_slots_invariant_amended (op : TwoFaOp) (c : TwoFactorAuthenticationComponent)
    (h : atMostOneServerError c) :
    atMostOneServerError (applyTwoFaOp op c)
    ∧ (∀ v, (TwoFactorAuthenticationComponent.setProblemDetails c v)._internalServerErrorDetails = none)
    ∧ (∀ v, (TwoFactorAuthenticationComponent.setInternalServerErrorDetails c v)._problemDetails = none)
    ∧ (clearsBothServerErrorSlots op = true →
        (applyTwoFaOp op c)._problemDetails = none
        ∧ (applyTwoFaOp op c)._internalServerErrorDetails = none)
    ∧ (TwoFactorAuthenticationComponent._onFinish2faSetup c)._problemDetails = c._problemDetails
    ∧ (TwoFactorAuthenticationComponent._onFinish2faSetup c)._internalServerErrorDetails
        = c._internalServerErrorDetails := by
  refine ⟨?_, fun _ => rfl, fun _ => rfl, ?_, rfl, rfl⟩
  · cases op with
    | setProblemDetails v => exact Or.inr rfl
    | setInternalServerErrorDetails v => exact Or.inl rfl
    | twoFactorAuthToggle => exact Or.inl rfl
    | cancelSetupWizard => exact Or.inl rfl
    | finish2faSetup => exact h
    | generateNew2FaRecoveryCodes => exact Or.inl rfl
    | verifyAuthenticator => exact Or.inl rfl
    | userCodesPanelClosed => exact Or.inl rfl
  · intro hop
    cases op <;> first
      | exact Bool.noConfusion hop
      | exact ⟨rfl, rfl⟩

/-- Claim C10 amended witness: the invariant conclusion evaluated at the
toggle handler on a component with both slots null. -/
theorem c10_error_slots_invariant_amended_witness :
    atMostOneServerError (applyTwoFaOp TwoFaOp.twoFactorAuthToggle ⟨none, none, false⟩) :=
  (c10_error_slots_invariant_amended TwoFaOp.twoFactorAuthToggle ⟨none, none, false⟩ (Or.inl rfl)).1
